import Mathlib

/-!
Verification of the VitronMax BBB-prediction frontend and of the batch-job
contract it consumes.

The TypeScript sources under the frontend are embedded shallowly: JS strings
are Lean `String`s, but all character-level operations (split, trim, quote
stripping, lower-casing) are re-implemented over `List Char` by structural
recursion so that every definition evaluates inside the kernel.  JS `number`
is modelled as `ℚ` (no floating point enters any claim), JS
`undefined`/`null` as `Option`, and the external primitives `parseFloat`,
`parseInt` and `Number.prototype.toFixed` are abstracted as function
parameters: no claim in this development depends on their behaviour, and
every concrete theorem instantiates them with explicit stand-ins that are
never consulted on the inputs involved.

Backend code (the FastAPI orchestrator, classifier adapter and artifact
store) is not part of the repository snapshot; where a claim depends on it,
the relevant operation is modelled from the specification and marked
`Modelled from the spec:` in its doc comment.
-/

namespace VitronMax

/-! ## Character-list string primitives

JS `String.prototype.split(sep)`, `trim()`, `replace(/"/g,'')` and
`toLowerCase()`, re-implemented over `List Char` so that they reduce in the
kernel.  `splitOnChar` mirrors JS `split` with a single-character separator:
it never returns an empty list and produces `n+1` fields for `n` separators.
-/

def splitOnChar (c : Char) : List Char → List (List Char)
  | [] => [[]]
  | a :: rest =>
    let r := splitOnChar c rest
    if a = c then [] :: r
    else
      match r with
      | [] => [[a]]
      | h :: t => (a :: h) :: t

/-- JS `trim()`: drop whitespace from both ends. -/
def trimChars (l : List Char) : List Char :=
  ((l.dropWhile Char.isWhitespace).reverse.dropWhile Char.isWhitespace).reverse

/-- JS `replace(/"/g, '')`: remove every double-quote character. -/
def stripQuotes (l : List Char) : List Char :=
  l.filter (fun c => c ≠ '"')

/-- JS `toLowerCase()` (ASCII case, which is all the sources use). -/
def lowerChars (l : List Char) : List Char :=
  l.map Char.toLower

/-- Header cleaning in `parseCSVResults`:
`h.replace(/"/g, '').trim().toLowerCase()` (BatchResults.tsx:29). -/
def cleanHeaderCell (l : List Char) : List Char :=
  lowerChars (trimChars (stripQuotes l))

/-- Value cleaning in `parseCSVResults`:
`v.replace(/"/g, '').trim()` (BatchResults.tsx:82). -/
def cleanValueCell (l : List Char) : List Char :=
  trimChars (stripQuotes l)

/-- JS `||` on strings: the empty string is falsy. -/
def jsOr (s fallback : String) : String :=
  if s = "" then fallback else s

/-! ## Data model (frontend/src/lib/types.ts)

`MoleculeResult` is the union of the fields the repository's components
read or write.  `types.ts` declares `prediction_class` and
`confidence_score` as required, but `parseCSVResults` never sets them, so
at runtime they are `undefined` on parsed rows; they are therefore
modelled as `Option`.  Fields that `types.ts` marks optional/nullable are
`Option` as well; `bbb_probability`, `bbb_class`, `prediction_certainty`
and `processing_time_ms` are always populated by the parser (with
defaults), matching their non-nullable declarations. -/

structure MoleculeResult where
  smiles : String
  molecule_name : Option String
  bbb_probability : ℚ
  bbb_class : String
  prediction_certainty : ℚ
  prediction_class : Option String
  confidence_score : Option ℚ
  applicability_score : Option ℚ
  processing_time_ms : ℚ
  mw : Option ℚ
  logp : Option ℚ
  tpsa : Option ℚ
  rot_bonds : Option Int
  h_acceptors : Option Int
  h_donors : Option Int
  frac_csp3 : Option ℚ
  molar_refractivity : Option ℚ
  log_s_esol : Option ℚ
  gi_absorption : Option String
  lipinski_passes : Option Bool
  pains_alerts : Option Int
  brenk_alerts : Option Int
  num_heavy_atoms : Option Int
  molecular_formula : Option String
  exact_mw : Option ℚ
  formal_charge : Option Int
  num_rings : Option Int
  error : Option String
deriving DecidableEq

/-- `Partial<MoleculeResult>` accumulated row state (`rowData` in
`parseCSVResults`, BatchResults.tsx:83).  JS `undefined` and an explicit
`null` assignment behave identically under the `??` / `=== undefined`
checks of the final assembly, so both are `none`. -/
structure PartialRow where
  smiles : Option String := none
  molecule_name : Option String := none
  bbb_probability : Option ℚ := none
  bbb_class : Option String := none
  prediction_certainty : Option ℚ := none
  applicability_score : Option ℚ := none
  mw : Option ℚ := none
  logp : Option ℚ := none
  tpsa : Option ℚ := none
  rot_bonds : Option Int := none
  h_acceptors : Option Int := none
  h_donors : Option Int := none
  frac_csp3 : Option ℚ := none
  molar_refractivity : Option ℚ := none
  log_s_esol : Option ℚ := none
  gi_absorption : Option String := none
  lipinski_passes : Option Bool := none
  pains_alerts : Option Int := none
  brenk_alerts : Option Int := none
  num_heavy_atoms : Option Int := none
  molecular_formula : Option String := none
  exact_mw : Option ℚ := none
  formal_charge : Option Int := none
  num_rings : Option Int := none
  error : Option String := none
deriving DecidableEq

/-! ## parseCSVResults (frontend/src/pages/BatchResults.tsx:25-164) -/

/-- `isNA` test of BatchResults.tsx:90: the cleaned cell, lower-cased,
equals `n/a`, `nan` or the empty string. -/
def isNACell (v : List Char) : Bool :=
  let lower := String.mk (lowerChars v)
  lower = "n/a" || lower = "nan" || lower = ""

/-- Numeric cell: `isNA ? null : parseFloat(valueStr)` with `parseFloat`
abstracted as `pf`. -/
def parseNumCell (pf : String → ℚ) (v : List Char) : Option ℚ :=
  if isNACell v then none else some (pf (String.mk v))

/-- Integer cell: `isNA ? null : parseInt(valueStr, 10)` with `parseInt`
abstracted as `pi`. -/
def parseIntCell (pi : String → Int) (v : List Char) : Option Int :=
  if isNACell v then none else some (pi (String.mk v))

/-- String cell: `isNA ? null : valueStr`. -/
def parseStrCell (v : List Char) : Option String :=
  if isNACell v then none else some (String.mk v)

/-- Boolean cell for `lipinski_passes`:
`isNA ? null : lowerValueStr === 'true'`. -/
def parseBoolCell (v : List Char) : Option Bool :=
  if isNACell v then none else some (String.mk (lowerChars v) = "true")

/-- The target field names of `headerMap` (BatchResults.tsx:33-66):
`keyof MoleculeResult` values a CSV header can map to. -/
inductive FieldKey where
  | smiles
  | molecule_name
  | bbb_probability
  | bbb_class
  | prediction_certainty
  | applicability_score
  | mw
  | logp
  | tpsa
  | rot_bonds
  | h_acceptors
  | h_donors
  | frac_csp3
  | molar_refractivity
  | log_s_esol
  | gi_absorption
  | lipinski_passes
  | pains_alerts
  | brenk_alerts
  | num_heavy_atoms
  | molecular_formula
  | exact_mw
  | formal_charge
  | num_rings
  | error
deriving DecidableEq

/-- The entries of the `headerMap` object literal (BatchResults.tsx:33-66)
in source order: CSV header name (lower-cased) paired with the
`MoleculeResult` field it maps to. -/
def headerPairs : List (String × FieldKey) :=
  [ ("input_smiles", FieldKey.smiles),
    ("smiles", FieldKey.smiles),
    ("molecule_name", FieldKey.molecule_name),
    ("bbb_probability", FieldKey.bbb_probability),
    ("prediction_class", FieldKey.bbb_class),
    ("bbb_confidence", FieldKey.prediction_certainty),
    ("applicability_score", FieldKey.applicability_score),
    ("mw", FieldKey.mw),
    ("logp", FieldKey.logp),
    ("tpsa", FieldKey.tpsa),
    ("rot_bonds", FieldKey.rot_bonds),
    ("rotatable_bonds", FieldKey.rot_bonds),
    ("h_acceptors", FieldKey.h_acceptors),
    ("h_bond_acceptors", FieldKey.h_acceptors),
    ("h_donors", FieldKey.h_donors),
    ("h_bond_donors", FieldKey.h_donors),
    ("frac_csp3", FieldKey.frac_csp3),
    ("molar_refractivity", FieldKey.molar_refractivity),
    ("refractivity", FieldKey.molar_refractivity),
    ("log_s_esol", FieldKey.log_s_esol),
    ("gi_absorption", FieldKey.gi_absorption),
    ("lipinski_passes", FieldKey.lipinski_passes),
    ("pains_alerts", FieldKey.pains_alerts),
    ("brenk_alerts", FieldKey.brenk_alerts),
    ("num_heavy_atoms", FieldKey.num_heavy_atoms),
    ("heavy_atoms", FieldKey.num_heavy_atoms),
    ("molecular_formula", FieldKey.molecular_formula),
    ("mol_formula", FieldKey.molecular_formula),
    ("exact_mw", FieldKey.exact_mw),
    ("formal_charge", FieldKey.formal_charge),
    ("num_rings", FieldKey.num_rings),
    ("error", FieldKey.error) ]

/-- `headerMap[header]` (BatchResults.tsx:86): look the header name up in
the object's entries; `none` for headers the map does not know. -/
def headerMap (h : String) : Option FieldKey :=
  (headerPairs.find? (fun p => p.1 == h)).map (fun p => p.2)

/-- The `switch (mappedKey)` of BatchResults.tsx:92-128: store the cell
into the mapped field under the float/int/bool/string conversion rule of
the field's case. -/
def applyKey (pf : String → ℚ) (pi : String → Int) (r : PartialRow)
    (k : FieldKey) (v : List Char) : PartialRow :=
  match k with
  | FieldKey.smiles => { r with smiles := parseStrCell v }
  | FieldKey.molecule_name => { r with molecule_name := parseStrCell v }
  | FieldKey.bbb_probability => { r with bbb_probability := parseNumCell pf v }
  | FieldKey.bbb_class => { r with bbb_class := parseStrCell v }
  | FieldKey.prediction_certainty => { r with prediction_certainty := parseNumCell pf v }
  | FieldKey.applicability_score => { r with applicability_score := parseNumCell pf v }
  | FieldKey.mw => { r with mw := parseNumCell pf v }
  | FieldKey.logp => { r with logp := parseNumCell pf v }
  | FieldKey.tpsa => { r with tpsa := parseNumCell pf v }
  | FieldKey.rot_bonds => { r with rot_bonds := parseIntCell pi v }
  | FieldKey.h_acceptors => { r with h_acceptors := parseIntCell pi v }
  | FieldKey.h_donors => { r with h_donors := parseIntCell pi v }
  | FieldKey.frac_csp3 => { r with frac_csp3 := parseNumCell pf v }
  | FieldKey.molar_refractivity => { r with molar_refractivity := parseNumCell pf v }
  | FieldKey.log_s_esol => { r with log_s_esol := parseNumCell pf v }
  | FieldKey.gi_absorption => { r with gi_absorption := parseStrCell v }
  | FieldKey.lipinski_passes => { r with lipinski_passes := parseBoolCell v }
  | FieldKey.pains_alerts => { r with pains_alerts := parseIntCell pi v }
  | FieldKey.brenk_alerts => { r with brenk_alerts := parseIntCell pi v }
  | FieldKey.num_heavy_atoms => { r with num_heavy_atoms := parseIntCell pi v }
  | FieldKey.molecular_formula => { r with molecular_formula := parseStrCell v }
  | FieldKey.exact_mw => { r with exact_mw := parseNumCell pf v }
  | FieldKey.formal_charge => { r with formal_charge := parseIntCell pi v }
  | FieldKey.num_rings => { r with num_rings := parseIntCell pi v }
  | FieldKey.error => { r with error := parseStrCell v }

/-- One `headers.forEach` step of `parseCSVResults`
(BatchResults.tsx:85-130): the `headerMap` lookup followed by the
`switch` on the mapped key.  Headers not in `headerMap` leave the row
unchanged (`if (mappedKey)`). -/
def assignField (pf : String → ℚ) (pi : String → Int) (r : PartialRow)
    (header : String) (v : List Char) : PartialRow :=
  match headerMap header with
  | some k => applyKey pf pi r k v
  | none => r

/-- The `headers.forEach((header, index) => ...)` loop: walk the header
list with its running index, reading `values[index] || ''` out of the
split data line. -/
def assignFields (pf : String → ℚ) (pi : String → Int)
    (values : List (List Char)) : ℕ → List String → PartialRow → PartialRow
  | _, [], r => r
  | i, h :: hs, r =>
      assignFields pf pi values (i + 1) hs (assignField pf pi r h (values.getD i []))

/-- The cleaned cell values of one data line:
`lines[i].split(',').map(v => v.replace(/"/g, '').trim())`. -/
def valuesOfLine (line : List Char) : List (List Char) :=
  (splitOnChar ',' line).map cleanValueCell

/-- Build the `rowData` of one data line: split on commas, clean each
value, then run the header loop from index 0 on an empty partial row. -/
def buildRow (pf : String → ℚ) (pi : String → Int)
    (headers : List String) (line : List Char) : PartialRow :=
  assignFields pf pi (valuesOfLine line) 0 headers {}

/-- Final row assembly (`resultsArr.push({...})`, BatchResults.tsx:132-161):
`smiles` via `rowData.smiles || ''`, `bbb_probability`/`prediction_certainty`
via `?? 0`, `bbb_class` via `?? ''`, `processing_time_ms` fixed to `0`, and
every optional field via `?? null` (the identity on `Option`). -/
def mkFinalRow (r : PartialRow) : MoleculeResult where
  smiles := r.smiles.getD ""
  molecule_name := r.molecule_name
  bbb_probability := r.bbb_probability.getD 0
  bbb_class := r.bbb_class.getD ""
  prediction_certainty := r.prediction_certainty.getD 0
  prediction_class := none
  confidence_score := none
  applicability_score := r.applicability_score
  processing_time_ms := 0
  mw := r.mw
  logp := r.logp
  tpsa := r.tpsa
  rot_bonds := r.rot_bonds
  h_acceptors := r.h_acceptors
  h_donors := r.h_donors
  frac_csp3 := r.frac_csp3
  molar_refractivity := r.molar_refractivity
  log_s_esol := r.log_s_esol
  gi_absorption := r.gi_absorption
  lipinski_passes := r.lipinski_passes
  pains_alerts := r.pains_alerts
  brenk_alerts := r.brenk_alerts
  num_heavy_atoms := r.num_heavy_atoms
  molecular_formula := r.molecular_formula
  exact_mw := r.exact_mw
  formal_charge := r.formal_charge
  num_rings := r.num_rings
  error := r.error

/-- The cleaned, lower-cased header row of a CSV header line. -/
def csvHeaders (headerLine : List Char) : List String :=
  (splitOnChar ',' headerLine).map (fun h => String.mk (cleanHeaderCell h))

/-- The guard of BatchResults.tsx:68-79: a SMILES header
(`input_smiles` or `smiles`) must be present. -/
def hasSmilesHeader (headers : List String) : Bool :=
  headers.contains "input_smiles" || headers.contains "smiles"

/-- Body of `parseCSVResults` over the already-split line list: at most
one line, or a header row without a SMILES column, yields `[]`; otherwise
lines 1..n-1 are mapped, in order, through `buildRow` and `mkFinalRow`. -/
def parseCSVLines (pf : String → ℚ) (pi : String → Int) :
    List (List Char) → List MoleculeResult
  | [] => []
  | [_] => []
  | headerLine :: dataLines =>
    let headers := csvHeaders headerLine
    if hasSmilesHeader headers then
      dataLines.map (fun line => mkFinalRow (buildRow pf pi headers line))
    else []

/-- `parseCSVResults` (BatchResults.tsx:25-164): `csvText.trim()` is
split on newlines and handed to `parseCSVLines`. -/
def parseCSVResults (pf : String → ℚ) (pi : String → Int)
    (csvText : String) : List MoleculeResult :=
  parseCSVLines pf pi (splitOnChar '\n' (trimChars csvText.data))

/-- Stand-in for JS `parseFloat`; no theorem below depends on its values
(every numeric cell involved is empty or `N/A`). -/
def pfDemo : String → ℚ := fun _ => 42

/-- Stand-in for JS `parseInt`. -/
def piDemo : String → Int := fun _ => 42

/-! ## Batch job model (frontend/src/lib/types.ts:37-52,
backend/migrations/01_initial_schema.sql:5-20) -/

/-- `BatchJob.status`: enum of the four job states. -/
inductive JobStatus where
  | pending
  | processing
  | completed
  | failed
deriving DecidableEq

/-- `BatchJob` (types.ts:37-52).  Counters are `ℕ` (the schema stores
non-negative `INTEGER`s), `progress_percentage` is `ℚ`
(`DOUBLE PRECISION`), timestamps stay as opaque strings. -/
structure BatchJob where
  job_id : String
  job_name : Option String
  status : JobStatus
  created_at : String
  updated_at : String
  total_molecules : ℕ
  processed_molecules : ℕ
  failed_molecules : ℕ
  progress_percentage : ℚ
  estimated_completion_time : Option String := none
  completed_at : Option String := none
  error_message : Option String := none
  results_file_path : Option String := none
  notify_email : Option String := none
deriving DecidableEq

/-! ## Display classification (frontend/src/components/dashboard/
PredictionResult.tsx:34-44 and frontend/src/components/batch/
BatchResultsTable.tsx:78-91) -/

/-- `getPredictionLabel` (PredictionResult.tsx:40-44): the label shown for
a single prediction, a three-band function of `bbb_probability`. -/
def getPredictionLabel (p : ℚ) : String :=
  if p ≥ 7/10 then "High Permeability"
  else if p ≥ 3/10 then "Moderate Permeability"
  else "Low Permeability"

/-- `getPredictionClass` (PredictionResult.tsx:34-38): CSS class of the
prediction panel, same three bands. -/
def getPredictionClass (p : ℚ) : String :=
  if p ≥ 7/10 then "prediction-high"
  else if p ≥ 3/10 then "prediction-medium"
  else "prediction-low"

/-- JS truthiness of `result.error` (`Option String`): non-null and
non-empty. -/
def errTruthy (r : MoleculeResult) : Bool :=
  match r.error with
  | some e => e ≠ ""
  | none => false

/-- `getPredictionBadge` (BatchResultsTable.tsx:78-91): badge text —
`Error` when `result.error` is truthy, otherwise the three-band label. -/
def getPredictionBadgeLabel (r : MoleculeResult) : String :=
  if errTruthy r then "Error"
  else if r.bbb_probability ≥ 7/10 then "High Permeability"
  else if r.bbb_probability ≥ 3/10 then "Moderate"
  else "Low Permeability"

/-! ## Results-table summary counts and filtering
(BatchResultsTable.tsx:45-76, 133-135, 495-497) -/

/-- `results.filter(r => !r.error).length`. -/
def successCount (results : List MoleculeResult) : ℕ :=
  (results.filter (fun r => !errTruthy r)).length

/-- `results.filter(r => r.error).length`. -/
def errorCount (results : List MoleculeResult) : ℕ :=
  (results.filter (fun r => errTruthy r)).length

/-- `results.filter(r => !r.error && r.bbb_probability >= 0.7).length`. -/
def highPermeabilityCount (results : List MoleculeResult) : ℕ :=
  (results.filter (fun r => !errTruthy r && r.bbb_probability ≥ 7/10)).length

/-- `sub` occurs as a contiguous substring of `s`
(JS `String.prototype.includes`). -/
def strIncludes (s sub : String) : Bool :=
  decide (sub.data <:+: s.data)

/-- The search predicate of `filteredAndSortedResults`
(BatchResultsTable.tsx:47-50): empty search matches everything, otherwise
the lower-cased SMILES or (truthy) molecule name must contain the
lower-cased term. -/
def matchesSearch (searchTerm : String) (r : MoleculeResult) : Bool :=
  let searchLower := String.mk (lowerChars searchTerm.data)
  searchTerm = "" ||
    strIncludes (String.mk (lowerChars r.smiles.data)) searchLower ||
    (match r.molecule_name with
     | some n => n ≠ "" && strIncludes (String.mk (lowerChars n.data)) searchLower
     | none => false)

/-- The class-filter predicate (BatchResultsTable.tsx:52-54, first table):
`all`, or `result.prediction_class === filterClass`, or `error` with a
truthy error.  (`prediction_class` is `undefined` on parsed rows, so the
middle disjunct compares an absent value.) -/
def matchesFilter (filterClass : String) (r : MoleculeResult) : Bool :=
  filterClass = "all" ||
    (match r.prediction_class with
     | some c => c = filterClass
     | none => false) ||
    (filterClass = "error" && errTruthy r)

/-- `filteredAndSortedResults` (BatchResultsTable.tsx:45-76): filter by
search and class, then sort with the column comparator.  The comparator is
abstracted as a Boolean relation `le` (built from `sortBy`/`sortOrder` in
the source); `Array.prototype.sort` returns a permutation of its input for
every comparator, which is all any claim uses. -/
def filteredAndSortedResults (le : MoleculeResult → MoleculeResult → Bool)
    (searchTerm filterClass : String)
    (results : List MoleculeResult) : List MoleculeResult :=
  (results.filter (fun r => matchesSearch searchTerm r && matchesFilter filterClass r)).mergeSort le

/-! ## CSV export (BatchResultsTable.tsx:93-131 legacy table and
BatchResultsTable.tsx:448-493 virtualized table)

`toFixed(n)` is abstracted: `tf4`, `tf3`, `tf2` stand for
`x.toFixed(4)`, `x.toFixed(3)`, `x.toFixed(2)`.  The legacy export reads
`molecular_weight`, `h_bond_donors`, `h_bond_acceptors`,
`rotatable_bonds` and `refractivity` — fields `types.ts` does not declare
on `MoleculeResult` — so those accesses are always `undefined` and the
`|| '0.00'` / `?? 0` fallbacks are always taken. -/

/-- One row of the legacy `exportToCSV` (BatchResultsTable.tsx:102-121),
as the list of serialized cells in column order. -/
def exportRowLegacy (tf4 tf2 : ℚ → String) (r : MoleculeResult) : List String :=
  [ "\"" ++ r.smiles ++ "\"",
    "\"" ++ r.molecule_name.getD "" ++ "\"",
    jsOr (tf4 r.bbb_probability) "0.0000",
    "\"" ++ r.prediction_class.getD "" ++ "\"",
    (match r.confidence_score with
     | some q => jsOr (tf4 q) "0.0000"
     | none => "0.0000"),
    "0.00",
    (match r.logp with
     | some q => jsOr (tf2 q) "0.00"
     | none => "0.00"),
    (match r.tpsa with
     | some q => jsOr (tf2 q) "0.00"
     | none => "0.00"),
    "0",
    "0",
    "0",
    (match r.pains_alerts with
     | some n => toString n
     | none => "0"),
    (match r.brenk_alerts with
     | some n => toString n
     | none => "0"),
    (match r.formal_charge with
     | some n => toString n
     | none => "0"),
    "0.00",
    (match r.num_rings with
     | some n => toString n
     | none => "0"),
    (match r.exact_mw with
     | some q => jsOr (tf2 q) "0.00"
     | none => "0.00"),
    "\"" ++ r.error.getD "" ++ "\"" ]

/-- One row of the virtualized-table `exportToCSV`
(BatchResultsTable.tsx:457-483): absent numeric fields serialize as
`N/A` via `?? 'N/A'`, absent strings as `''`. -/
def exportRowCurrent (tf4 tf3 tf2 : ℚ → String) (r : MoleculeResult) : List String :=
  [ "\"" ++ r.smiles ++ "\"",
    "\"" ++ r.molecule_name.getD "" ++ "\"",
    tf4 r.bbb_probability,
    "\"" ++ r.bbb_class ++ "\"",
    tf4 r.prediction_certainty,
    (match r.applicability_score with
     | some q => tf4 q
     | none => "N/A"),
    (match r.mw with
     | some q => tf2 q
     | none => "N/A"),
    (match r.exact_mw with
     | some q => tf2 q
     | none => "N/A"),
    "\"" ++ r.molecular_formula.getD "" ++ "\"",
    (match r.logp with
     | some q => tf2 q
     | none => "N/A"),
    (match r.tpsa with
     | some q => tf2 q
     | none => "N/A"),
    (match r.h_donors with
     | some n => toString n
     | none => "N/A"),
    (match r.h_acceptors with
     | some n => toString n
     | none => "N/A"),
    (match r.rot_bonds with
     | some n => toString n
     | none => "N/A"),
    (match r.frac_csp3 with
     | some q => tf3 q
     | none => "N/A"),
    (match r.molar_refractivity with
     | some q => tf2 q
     | none => "N/A"),
    (match r.log_s_esol with
     | some q => tf2 q
     | none => "N/A"),
    "\"" ++ r.gi_absorption.getD "" ++ "\"",
    (match r.lipinski_passes with
     | some b => if b then "Yes" else "No"
     | none => "N/A"),
    (match r.pains_alerts with
     | some n => toString n
     | none => "N/A"),
    (match r.brenk_alerts with
     | some n => toString n
     | none => "N/A"),
    (match r.num_heavy_atoms with
     | some n => toString n
     | none => "N/A"),
    (match r.formal_charge with
     | some n => toString n
     | none => "N/A"),
    (match r.num_rings with
     | some n => toString n
     | none => "N/A"),
    "\"" ++ r.error.getD "" ++ "\"" ]

/-! ## API client (frontend/src/lib/api.ts:87-91) -/

/-- `baseURL?.replace(/\/$/, '')`: remove one trailing slash if present. -/
def stripTrailingSlash (s : String) : String :=
  if s.data.getLast? = some '/' then String.mk s.data.dropLast else s

/-- `getBatchDownloadUrl` (api.ts:87-91): pure function of the configured
base URL and the job id. -/
def getBatchDownloadUrl (baseURL jobId : String) : String :=
  stripTrailingSlash baseURL ++ "/download/" ++ jobId

/-! ## Client download / polling guards
(frontend/src/app/batch/[jobId]/page.tsx and
frontend/src/pages/BatchResults.tsx) -/

/-- Polling termination in `loadJobStatus` (page.tsx:35): the interval is
cleared exactly when the observed status is `completed` or `failed`. -/
def pollingStops (s : JobStatus) : Bool :=
  s = JobStatus.completed || s = JobStatus.failed

/-- Polling activation in BatchResults.tsx:229: an interval is installed
only while the job is `pending` or `processing`. -/
def pollingActive (s : JobStatus) : Bool :=
  s = JobStatus.pending || s = JobStatus.processing

/-- Guard of `handleDownload` (page.tsx:62):
`if (!job || job.status !== 'completed') return` — the download fires
only past this guard. -/
def handleDownloadFires (job : Option BatchJob) : Bool :=
  match job with
  | none => false
  | some j => j.status = JobStatus.completed

/-- `disabled={job.status !== 'completed'}` on the download button
(page.tsx:201-207). -/
def downloadButtonDisabled (j : BatchJob) : Bool :=
  ¬ j.status = JobStatus.completed

/-- Conditional rendering of the `Download CSV` control in
BatchResults.tsx:296: `job.status === 'completed' && <Button ...>`. -/
def downloadOriginalShown (j : BatchJob) : Bool :=
  j.status = JobStatus.completed

/-- Guard of the automatic results fetch (BatchResults.tsx:220-224):
`if (job && job.status === 'completed' && results.length === 0)`. -/
def autoFetchFires (job : Option BatchJob) (resultsLength : ℕ) : Bool :=
  match job with
  | none => false
  | some j => j.status = JobStatus.completed && resultsLength = 0

/-- Progress-bar width rendered by page.tsx:171 and BatchResults.tsx:329:
the stored `progress_percentage`, unmodified. -/
def progressBarWidth (j : BatchJob) : ℚ :=
  j.progress_percentage

/-! ## Backend contract, modelled from the spec

The FastAPI orchestrator and classifier adapter are not in the repository
snapshot (only their migrations, docs and frontend callers are), so the
operations below are derived from the specification text and marked as
such. -/

/-- The fixed calibrated decision threshold; `docs/model-validation.md`
records it as `Optimal threshold: 0.531`. -/
def optimalThreshold : ℚ := 531/1000

/-- Modelled from the spec: Classifier Adapter (§4.2) — the backend
assigns `predicted_class = permeable` iff `probability ≥ threshold`. -/
def specPredictedClass (p : ℚ) : String :=
  if p ≥ optimalThreshold then "permeable" else "non_permeable"

/-- A status is terminal when no further transition may leave it. -/
def isTerminal (s : JobStatus) : Bool :=
  s = JobStatus.completed || s = JobStatus.failed

/-- Position of a status along the forward chain
`pending → processing → {completed | failed}`. -/
def statusRank : JobStatus → ℕ
  | JobStatus.pending => 0
  | JobStatus.processing => 1
  | JobStatus.completed => 2
  | JobStatus.failed => 2

/-- Modelled from the spec: Batch Job Orchestrator state machine (§4.5,
§4.2) — the only permitted transitions.  `pending → failed` covers the
model-unavailable case of §4.2 (start of processing blocked, job marked
failed); there is no transition out of `completed` or `failed`. -/
def canStep : JobStatus → JobStatus → Bool
  | JobStatus.pending, JobStatus.processing => true
  | JobStatus.pending, JobStatus.failed => true
  | JobStatus.processing, JobStatus.completed => true
  | JobStatus.processing, JobStatus.failed => true
  | _, _ => false

/-- Clamp a rational to the interval `[0, 100]`. -/
def clampPercent (x : ℚ) : ℚ :=
  min 100 (max 0 x)

/-- Modelled from the spec: `progress_percentage` derivation (§3) —
`processed_molecules / total_molecules * 100`, clamped to `[0,100]`,
recomputed on every counter update (backend run loop, absent from src). -/
def computeProgressPercentage (processed total : ℕ) : ℚ :=
  clampPercent ((processed : ℚ) / (total : ℚ) * 100)

/-- Modelled from the spec: one counter update of the orchestrator's run
loop (§4.5 Run) — sets the counters and rederives `progress_percentage`
from them. -/
def applyCounterUpdate (j : BatchJob) (processed failed : ℕ) : BatchJob :=
  { j with
    processed_molecules := processed
    failed_molecules := failed
    progress_percentage := computeProgressPercentage processed j.total_molecules }

/-- Typed upload-validation errors (§7 Validation errors). -/
inductive ValidationError where
  | missingSmilesColumn
  | emptyFile
  | tooManyMolecules
  | fileTooLarge
deriving DecidableEq

/-- Limit from `docs/API-documentation.md:246-251`: maximum batch size,
10,000 molecules. -/
def maxBatchMolecules : ℕ := 10000

/-- Limit from `docs/API-documentation.md:246-251`: maximum CSV file
size, 50 MB. -/
def maxUploadBytes : ℕ := 50 * 1024 * 1024

/-- An uploaded file as the validation surface sees it: its header
names, its molecule-row count and its size in bytes. -/
structure UploadFile where
  headers : List String
  moleculeCount : ℕ
  sizeBytes : ℕ

/-- Modelled from the spec: upload validation (§4.5 Create, §7) — checks
column presence, non-emptiness, the molecule-count cap and the size cap,
producing the first violated constraint as a typed error, before any
persistent state is touched. -/
def validateUpload (f : UploadFile) : Option ValidationError :=
  if f.headers.contains "smiles" = false then some ValidationError.missingSmilesColumn
  else if f.moleculeCount = 0 then some ValidationError.emptyFile
  else if f.moleculeCount > maxBatchMolecules then some ValidationError.tooManyMolecules
  else if f.sizeBytes > maxUploadBytes then some ValidationError.fileTooLarge
  else none

/-- Modelled from the spec: job creation (§4.5 Create) — on validation
failure the job store is returned untouched and a typed error is raised;
on success a fresh `pending` job with zeroed counters is appended. -/
def handleUpload (f : UploadFile) (newId : String) (store : List BatchJob) :
    List BatchJob × Except ValidationError String :=
  match validateUpload f with
  | some e => (store, Except.error e)
  | none =>
    let j : BatchJob :=
      { job_id := newId
        job_name := none
        status := JobStatus.pending
        created_at := ""
        updated_at := ""
        total_molecules := f.moleculeCount
        processed_molecules := 0
        failed_molecules := 0
        progress_percentage := 0 }
    (store ++ [j], Except.ok newId)

/-- Modelled from the spec: the Artifact Store (§6) as a partial map from
references to byte strings. -/
def ArtifactStore : Type := String → Option String

/-- Modelled from the spec: §5 — "The Artifact Store write for a job's
result file happens exactly once ... and is never revised in place": a
`put` on an already-written reference leaves the stored bytes unchanged. -/
def artifactPut (store : ArtifactStore) (key v : String) : ArtifactStore :=
  fun k =>
    if k = key then
      match store key with
      | some old => some old
      | none => some v
    else store k

/-- Modelled from the spec: §4.5 Idempotent download — a download reads
the artifact bytes and leaves the store unchanged. -/
def downloadArtifact (store : ArtifactStore) (ref : String) :
    Option String × ArtifactStore :=
  (store ref, store)

/-! ## Concrete inputs used by witnesses and counterexamples -/

/-- A header name the parser treats as the SMILES column:
`input_smiles` or `smiles` (both map to the `smiles` field). -/
def isSmilesName (h : String) : Bool :=
  h = "input_smiles" || h = "smiles"

/-- Stand-in for `Number.prototype.toFixed`; the theorems using it never
depend on its output on present values. -/
def tfDemo : ℚ → String := fun _ => "X"

/-- A row as the parser materializes a fully-failed artifact line:
`error` populated, every optional field absent, the non-nullable fields
carrying their parser defaults. -/
def errorRowOf (s e : String) : MoleculeResult where
  smiles := s
  molecule_name := none
  bbb_probability := 0
  bbb_class := ""
  prediction_certainty := 0
  prediction_class := none
  confidence_score := none
  applicability_score := none
  processing_time_ms := 0
  mw := none
  logp := none
  tpsa := none
  rot_bonds := none
  h_acceptors := none
  h_donors := none
  frac_csp3 := none
  molar_refractivity := none
  log_s_esol := none
  gi_absorption := none
  lipinski_passes := none
  pains_alerts := none
  brenk_alerts := none
  num_heavy_atoms := none
  molecular_formula := none
  exact_mw := none
  formal_charge := none
  num_rings := none
  error := some e

/-- A successfully predicted row with a high probability and no error. -/
def successRowOf (s : String) (p : ℚ) : MoleculeResult :=
  { errorRowOf s "" with bbb_probability := p, bbb_class := "permeable", error := none }

/-- A concrete job record used to instantiate theorems. -/
def demoJob (st : JobStatus) : BatchJob where
  job_id := "4f7c"
  job_name := some "demo"
  status := st
  created_at := "2025-01-01T00:00:00Z"
  updated_at := "2025-01-01T00:05:00Z"
  total_molecules := 4
  processed_molecules := 2
  failed_molecules := 1
  progress_percentage := 50

/-- A concrete artifact store holding one result file. -/
def demoStore : ArtifactStore :=
  fun k => if k = "results/4f7c.csv" then some "input_smiles,error\nCCO," else none

/-- A concrete three-line results CSV: header plus two data lines. -/
def csvDemo : String := "input_smiles,bbb_probability\nCCO,0.9\nCCN,"

/-! # Theorems -/

/-- C1 counterexample: the label the dashboard displays is NOT a function
of the probability through the single calibrated threshold.  At the
concrete probabilities 0.6 and 0.8 — both at or above the 0.531
threshold — `getPredictionLabel` produces two different labels, so no
function of the one-threshold predicate can reproduce it. -/
theorem C1_counterexample :
    optimalThreshold ≤ 6/10 ∧ optimalThreshold ≤ 8/10 ∧
    getPredictionLabel (6/10) = "Moderate Permeability" ∧
    getPredictionLabel (8/10) = "High Permeability" ∧
    ¬ ∃ f : Bool → String,
        ∀ p : ℚ, getPredictionLabel p = f (decide (optimalThreshold ≤ p)) := by
  refine ⟨by norm_num [optimalThreshold], by norm_num [optimalThreshold], ?_, ?_, ?_⟩
  · rw [getPredictionLabel, if_neg (by norm_num), if_pos (by norm_num)]
  · rw [getPredictionLabel, if_pos (by norm_num)]
  · rintro ⟨f, hf⟩
    have h6 := hf (6/10)
    have h8 := hf (8/10)
    rw [show decide (optimalThreshold ≤ (6:ℚ)/10) = true by
          simp [optimalThreshold]; norm_num] at h6
    rw [show decide (optimalThreshold ≤ (8:ℚ)/10) = true by
          simp [optimalThreshold]; norm_num] at h8
    rw [getPredictionLabel, if_neg (by norm_num), if_pos (by norm_num)] at h6
    rw [getPredictionLabel, if_pos (by norm_num)] at h8
    rw [← h8] at h6
    exact absurd h6 (by decide)

/-- C1 (amended): the backend class contract (modelled from the spec)
follows the single threshold, while the displayed label and badge follow
the three-band scheme `≥ 0.7` / `≥ 0.3`: the bands, not the threshold,
characterize what each probability displays. -/
theorem C1_threshold_vs_bands (p : ℚ) :
    (specPredictedClass p = "permeable" ↔ optimalThreshold ≤ p) ∧
    (getPredictionLabel p = "High Permeability" ↔ 7/10 ≤ p) ∧
    (getPredictionLabel p = "Moderate Permeability" ↔ 3/10 ≤ p ∧ p < 7/10) ∧
    (getPredictionLabel p = "Low Permeability" ↔ p < 3/10) ∧
    (∀ r : MoleculeResult, errTruthy r = true → getPredictionBadgeLabel r = "Error") ∧
    (∀ r : MoleculeResult, errTruthy r = false →
      (getPredictionBadgeLabel r = "High Permeability" ↔ 7/10 ≤ r.bbb_probability)) := by
  refine ⟨?_, ?_, ?_, ?_, ?_, ?_⟩
  · rw [specPredictedClass]
    split_ifs with h
    · simpa using h
    · simp only [ge_iff_le, not_le] at h
      constructor
      · intro hc; exact absurd hc (by decide)
      · intro hc; exact absurd hc (not_le.2 h)
  · rw [getPredictionLabel]
    split_ifs with h1 h2
    · simpa using h1
    · constructor
      · intro hc; exact absurd hc (by decide)
      · intro hc; exact absurd hc (by simpa using h1)
    · constructor
      · intro hc; exact absurd hc (by decide)
      · intro hc; exact absurd hc (by simpa using h1)
  · rw [getPredictionLabel]
    split_ifs with h1 h2
    · constructor
      · intro hc; exact absurd hc (by decide)
      · rintro ⟨-, hc⟩; simp only [ge_iff_le] at h1; linarith
    · simp only [ge_iff_le, not_le] at h1
      simp only [ge_iff_le] at h2
      constructor
      · intro _; exact ⟨h2, h1⟩
      · intro _; rfl
    · simp only [ge_iff_le, not_le] at h1 h2
      constructor
      · intro hc; exact absurd hc (by decide)
      · rintro ⟨hc, -⟩; exact absurd hc (not_le.2 h2)
  · rw [getPredictionLabel]
    split_ifs with h1 h2
    · simp only [ge_iff_le] at h1
      constructor
      · intro hc; exact absurd hc (by decide)
      · intro hc; linarith
    · simp only [ge_iff_le] at h2
      constructor
      · intro hc; exact absurd hc (by decide)
      · intro hc; linarith
    · simp only [ge_iff_le, not_le] at h2
      exact ⟨fun _ => h2, fun _ => rfl⟩
  · intro r hr
    rw [getPredictionBadgeLabel, if_pos hr]
  · intro r hr
    rw [getPredictionBadgeLabel, if_neg (by simp [hr])]
    split_ifs with h1 h2
    · simpa using h1
    · constructor
      · intro hc; exact absurd hc (by decide)
      · intro hc; exact absurd hc (by simpa using h1)
    · constructor
      · intro hc; exact absurd hc (by decide)
      · intro hc; exact absurd hc (by simpa using h1)

/-- C1 witness: the amended characterization applied at probability 0.6
(spec class `permeable`, displayed label `Moderate Permeability`) and at
a concrete high-probability row (badge `High Permeability`). -/
theorem C1_threshold_vs_bands_witness :
    specPredictedClass (6/10) = "permeable" ∧
    getPredictionLabel (6/10) = "Moderate Permeability" ∧
    getPredictionBadgeLabel (successRowOf "CCO" (8/10)) = "High Permeability" := by
  refine ⟨(C1_threshold_vs_bands (6/10)).1.mpr (by norm_num [optimalThreshold]),
    (C1_threshold_vs_bands (6/10)).2.2.1.mpr (by norm_num), ?_⟩
  exact ((C1_threshold_vs_bands 0).2.2.2.2.2 (successRowOf "CCO" (8/10))
    (by decide)).mpr (by norm_num [successRowOf, errorRowOf])

/-- C2 counterexample: parsing an artifact row that carries only a SMILES
and a non-null error yields a `MoleculeResult` whose error is populated
AND whose `bbb_probability` and `prediction_certainty` are populated with
defaulted zeros — the two alternatives of the claimed invariant hold at
once. -/
theorem C2_counterexample :
    (parseCSVResults pfDemo piDemo "input_smiles,error\nCCO,bad").map
      (fun r => (r.smiles, r.error, r.bbb_probability, r.prediction_certainty)) =
    [("CCO", some "bad", 0, 0)] := by decide

/-- C2 (amended): the final row assembly of `parseCSVResults` preserves
`error` and the absence of the optional descriptor fields, but fills the
non-nullable `bbb_probability`, `prediction_certainty` and `bbb_class`
with the defaults `0`, `0` and `''` whenever they are absent — so an
error row carries defaulted zeros rather than absent prediction values. -/
theorem C2_error_rows_carry_defaults (r : PartialRow)
    (hp : r.bbb_probability = none) (hc : r.prediction_certainty = none)
    (hb : r.bbb_class = none) :
    (mkFinalRow r).bbb_probability = 0 ∧
    (mkFinalRow r).prediction_certainty = 0 ∧
    (mkFinalRow r).bbb_class = "" ∧
    (mkFinalRow r).error = r.error ∧
    (mkFinalRow r).mw = r.mw ∧
    (mkFinalRow r).logp = r.logp ∧
    (mkFinalRow r).applicability_score = r.applicability_score := by
  refine ⟨?_, ?_, ?_, rfl, rfl, rfl, rfl⟩
  · rw [mkFinalRow, hp]; rfl
  · rw [mkFinalRow, hc]; rfl
  · rw [mkFinalRow, hb]; rfl

/-- C2 witness: the amended statement at a concrete partial row holding
only an error. -/
theorem C2_error_rows_carry_defaults_witness :
    (mkFinalRow { error := some "boom" }).bbb_probability = 0 ∧
    (mkFinalRow { error := some "boom" }).prediction_certainty = 0 ∧
    (mkFinalRow { error := some "boom" }).bbb_class = "" ∧
    (mkFinalRow { error := some "boom" }).error = some "boom" ∧
    (mkFinalRow { error := some "boom" }).mw = none ∧
    (mkFinalRow { error := some "boom" }).logp = none ∧
    (mkFinalRow { error := some "boom" }).applicability_score = none :=
  C2_error_rows_carry_defaults { error := some "boom" } rfl rfl rfl

/-- C3 counterexample: the legacy `exportToCSV` serializes a failed row —
every optional prediction value absent — with `0.0000`, `0.00` and `0`
placeholders in the numeric columns (confidence, molecular weight, LogP,
TPSA, donor/acceptor/rotatable-bond counts, alert counts, charge,
refractivity, ring count, exact MW), so writing an absent numeric value
does emit the number 0 in its place. -/
theorem C3_counterexample :
    exportRowLegacy tfDemo tfDemo (errorRowOf "CCO" "boom") =
      ["\"CCO\"", "\"\"", "X", "\"\"", "0.0000", "0.00", "0.00", "0.00",
       "0", "0", "0", "0", "0", "0", "0.00", "0", "0.00", "\"boom\""] := by
  decide

/-- C3 (amended): the empty-versus-zero distinction survives only through
the virtualized-table export and only for the nullable descriptor fields:
that export writes `N/A` (never 0) for every absent numeric cell, and the
cell reader maps empty/`N/A`/`NaN` to null; but `bbb_probability` and
`prediction_certainty` reach the export already defaulted to 0 by the
parser (serialized as `toFixed` of 0), and the legacy export writes 0
placeholders throughout. -/
theorem C3_current_export_absent_is_na (tf4 tf3 tf2 : ℚ → String)
    (s e : String) :
    exportRowCurrent tf4 tf3 tf2 (errorRowOf s e) =
      ["\"" ++ s ++ "\"", "\"\"", tf4 0, "\"\"", tf4 0, "N/A", "N/A", "N/A",
       "\"\"", "N/A", "N/A", "N/A", "N/A", "N/A", "N/A", "N/A", "N/A",
       "\"\"", "N/A", "N/A", "N/A", "N/A", "N/A", "N/A",
       "\"" ++ e ++ "\""] ∧
    (∀ pf : String → ℚ, ∀ v : List Char,
      isNACell v = true → parseNumCell pf v = none) ∧
    (∀ pf : String → ℚ,
      parseNumCell pf "".data = none ∧
      parseNumCell pf "N/A".data = none ∧
      parseNumCell pf "NaN".data = none) ∧
    (∀ r : PartialRow, r.mw = none → (mkFinalRow r).mw = none) := by
  refine ⟨rfl, ?_, ?_, ?_⟩
  · intro pf v hv
    rw [parseNumCell, if_pos hv]
  · intro pf
    refine ⟨?_, ?_, ?_⟩ <;> rw [parseNumCell, if_pos (by decide)]
  · intro r hr
    rw [mkFinalRow, hr]

/-- C3 witness: the amended statement at concrete stand-ins — a failed
row for the SMILES `CCO` with message `boom`, and the `N/A` cell. -/
theorem C3_current_export_absent_is_na_witness :
    exportRowCurrent tfDemo tfDemo tfDemo (errorRowOf "CCO" "boom") =
      ["\"CCO\"", "\"\"", tfDemo 0, "\"\"", tfDemo 0, "N/A", "N/A", "N/A",
       "\"\"", "N/A", "N/A", "N/A", "N/A", "N/A", "N/A", "N/A", "N/A",
       "\"\"", "N/A", "N/A", "N/A", "N/A", "N/A", "N/A", "\"boom\""] ∧
    parseNumCell pfDemo "N/A".data = none ∧
    (mkFinalRow { error := some "x" }).mw = none := by
  have h := C3_current_export_absent_is_na tfDemo tfDemo tfDemo "CCO" "boom"
  exact ⟨h.1, (h.2.2.1 pfDemo).2.1, h.2.2.2 { error := some "x" } rfl⟩

/-- C4: progress percentage, recomputed by every counter update as
`processed / total * 100` clamped to `[0,100]` (orchestrator modelled
from the spec), always lies in `[0,100]` — in particular the value the
client renders as the progress-bar width does — and agrees with the
unclamped formula whenever the counters are consistent
(`processed ≤ total`, `total > 0`). -/
theorem C4_progress_derivation_and_clamping (j : BatchJob) (p f : ℕ) :
    0 ≤ progressBarWidth (applyCounterUpdate j p f) ∧
    progressBarWidth (applyCounterUpdate j p f) ≤ 100 ∧
    (0 < j.total_molecules → p ≤ j.total_molecules →
      (applyCounterUpdate j p f).progress_percentage =
        (p : ℚ) / (j.total_molecules : ℚ) * 100) := by
  refine ⟨?_, ?_, ?_⟩
  · rw [progressBarWidth, applyCounterUpdate]
    simp only [computeProgressPercentage, clampPercent]
    rw [le_min_iff]
    exact ⟨by norm_num, le_max_left 0 _⟩
  · rw [progressBarWidth, applyCounterUpdate]
    exact min_le_left 100 _
  · intro ht hp
    rw [applyCounterUpdate]
    simp only [computeProgressPercentage, clampPercent]
    have htq : (0 : ℚ) < (j.total_molecules : ℚ) := by exact_mod_cast ht
    have hdiv : (p : ℚ) / (j.total_molecules : ℚ) ≤ 1 :=
      (div_le_one htq).2 (by exact_mod_cast hp)
    have h0 : (0 : ℚ) ≤ (p : ℚ) / (j.total_molecules : ℚ) * 100 := by positivity
    have h100 : (p : ℚ) / (j.total_molecules : ℚ) * 100 ≤ 100 := by nlinarith
    rw [max_eq_right h0, min_eq_right h100]

/-- C4 witness: the derivation applied to a concrete processing job with
4 molecules, 2 of them processed. -/
theorem C4_progress_derivation_and_clamping_witness :
    0 ≤ progressBarWidth (applyCounterUpdate (demoJob JobStatus.processing) 2 1) ∧
    progressBarWidth (applyCounterUpdate (demoJob JobStatus.processing) 2 1) ≤ 100 ∧
    (applyCounterUpdate (demoJob JobStatus.processing) 2 1).progress_percentage =
      (2 : ℚ) / (4 : ℚ) * 100 := by
  have h := C4_progress_derivation_and_clamping (demoJob JobStatus.processing) 2 1
  exact ⟨h.1, h.2.1, h.2.2 (by norm_num [demoJob]) (by norm_num [demoJob])⟩

/-- C5: the job state machine (modelled from the spec) only moves
strictly forward along `pending → processing → {completed | failed}`,
admits no transition out of a terminal state, and the client code stops
polling exactly on the terminal states: the poll-clearing guard fires and
no poll interval is installed once `completed` or `failed` is observed. -/
theorem C5_state_machine_monotone :
    (∀ s t : JobStatus, canStep s t = true → statusRank s < statusRank t) ∧
    (∀ t : JobStatus, canStep JobStatus.completed t = false) ∧
    (∀ t : JobStatus, canStep JobStatus.failed t = false) ∧
    (∀ s : JobStatus, isTerminal s = true →
      pollingStops s = true ∧ pollingActive s = false) := by
  refine ⟨?_, ?_, ?_, ?_⟩
  · intro s t h
    cases s <;> cases t <;> simp_all [canStep, statusRank]
  · intro t; cases t <;> rfl
  · intro t; cases t <;> rfl
  · intro s h
    cases s <;> simp_all [isTerminal, pollingStops, pollingActive]

/-- C5 witness: a concrete forward step and the client's termination on
a concrete terminal state. -/
theorem C5_state_machine_monotone_witness :
    statusRank JobStatus.pending < statusRank JobStatus.processing ∧
    canStep JobStatus.completed JobStatus.processing = false ∧
    pollingStops JobStatus.completed = true ∧
    pollingActive JobStatus.completed = false := by
  refine ⟨C5_state_machine_monotone.1 JobStatus.pending JobStatus.processing rfl,
    C5_state_machine_monotone.2.1 JobStatus.processing, ?_, ?_⟩
  · exact (C5_state_machine_monotone.2.2.2 JobStatus.completed rfl).1
  · exact (C5_state_machine_monotone.2.2.2 JobStatus.completed rfl).2

/-- C6: upload validation (modelled from the spec; limits from the API
documentation) accepts exactly the files meeting all four constraints;
a violated constraint surfaces as its typed error with the job store
returned untouched — no job record is created — and a file over 10,000
molecules is rejected as `tooManyMolecules`. -/
theorem C6_upload_validation_fails_fast (f : UploadFile) (newId : String)
    (store : List BatchJob) :
    (validateUpload f = none ↔
      f.headers.contains "smiles" = true ∧ f.moleculeCount ≠ 0 ∧
      f.moleculeCount ≤ maxBatchMolecules ∧ f.sizeBytes ≤ maxUploadBytes) ∧
    (∀ e, validateUpload f = some e →
      (handleUpload f newId store).1 = store ∧
      (handleUpload f newId store).2 = Except.error e) ∧
    (f.moleculeCount > maxBatchMolecules → f.headers.contains "smiles" = true →
      validateUpload f = some ValidationError.tooManyMolecules) := by
  refine ⟨?_, ?_, ?_⟩
  · constructor
    · intro hv
      rw [validateUpload] at hv
      split_ifs at hv with h1 h2 h3 h4
      refine ⟨?_, h2, not_lt.1 h3, not_lt.1 h4⟩
      revert h1
      cases f.headers.contains "smiles" <;> simp
    · rintro ⟨hc, hn, hm, hs⟩
      rw [validateUpload, if_neg (by rw [hc]; decide), if_neg hn,
        if_neg (not_lt.2 hm), if_neg (not_lt.2 hs)]
  · intro e he
    rw [handleUpload, he]
    exact ⟨rfl, rfl⟩
  · intro hcount hsmiles
    have hn : ¬ f.moleculeCount = 0 := by
      intro h0
      rw [h0] at hcount
      exact absurd hcount (by simp)
    rw [validateUpload, if_neg (by rw [hsmiles]; decide), if_neg hn, if_pos hcount]

/-- C6 witness: a 10,001-molecule upload against an empty store is
rejected with the typed `tooManyMolecules` error and creates no record. -/
theorem C6_upload_validation_fails_fast_witness :
    (handleUpload ⟨["smiles"], 10001, 5000⟩ "job-1" []).1 = [] ∧
    (handleUpload ⟨["smiles"], 10001, 5000⟩ "job-1" []).2 =
      Except.error ValidationError.tooManyMolecules := by
  have h := C6_upload_validation_fails_fast ⟨["smiles"], 10001, 5000⟩ "job-1" []
  have hv := h.2.2 (by norm_num [maxBatchMolecules]) (by decide)
  exact h.2.1 ValidationError.tooManyMolecules hv

/-- C7: downloading a completed job's artifact is idempotent and
side-effect-free — the store is unchanged and two reads return identical
bytes — the artifact reference is immutable once written (a later put
does not revise it; store modelled from the spec), and the client's
`getBatchDownloadUrl` is a pure function of base URL and job id whose
result is invariant under the trailing-slash normalization it performs. -/
theorem C7_download_idempotent (store : ArtifactStore)
    (ref key v v' base jobId : String) :
    (downloadArtifact store ref).2 = store ∧
    (downloadArtifact store ref).1 =
      (downloadArtifact (downloadArtifact store ref).2 ref).1 ∧
    (store key = some v → artifactPut store key v' key = some v) ∧
    (∀ j1 j2 : String, j1 = j2 →
      getBatchDownloadUrl base j1 = getBatchDownloadUrl base j2) ∧
    (base.data.getLast? ≠ some '/' →
      getBatchDownloadUrl (base ++ "/") jobId = getBatchDownloadUrl base jobId) := by
  refine ⟨rfl, rfl, ?_, ?_, ?_⟩
  · intro h
    simp [artifactPut, h]
  · intro j1 j2 h; rw [h]
  · intro h
    rw [getBatchDownloadUrl, getBatchDownloadUrl, stripTrailingSlash,
      stripTrailingSlash, if_neg h]
    rw [if_pos (by rw [String.data_append]; exact List.getLast?_concat _)]
    have hd : (base ++ "/").data.dropLast = base.data := by
      rw [String.data_append]; exact List.dropLast_concat
    rw [hd]

/-- C7 witness: two reads of the demo store's result artifact return the
same bytes with the store untouched, a second put does not revise the
stored artifact, and the download URL for job `4f7c` is unchanged by
trailing-slash normalization of the base URL. -/
theorem C7_download_idempotent_witness :
    (downloadArtifact demoStore "results/4f7c.csv").2 = demoStore ∧
    (downloadArtifact demoStore "results/4f7c.csv").1 =
      (downloadArtifact (downloadArtifact demoStore "results/4f7c.csv").2
        "results/4f7c.csv").1 ∧
    artifactPut demoStore "results/4f7c.csv" "overwrite" "results/4f7c.csv" =
      some "input_smiles,error\nCCO," ∧
    getBatchDownloadUrl ("http://localhost:8001/api/v1" ++ "/") "4f7c" =
      getBatchDownloadUrl "http://localhost:8001/api/v1" "4f7c" := by
  have h := C7_download_idempotent demoStore "results/4f7c.csv"
    "results/4f7c.csv" "input_smiles,error\nCCO," "overwrite"
    "http://localhost:8001/api/v1" "4f7c"
  exact ⟨h.1, h.2.1, h.2.2.1 (by decide), h.2.2.2.2 (by decide)⟩

/-- C8: every download initiation path in the client requires the
observed status to be `completed` — the automatic results fetch and
`handleDownload` fire only then — and the download controls are enabled
or rendered if and only if the job is `completed`. -/
theorem C8_download_requires_completed (j : BatchJob) (oj : Option BatchJob)
    (n : ℕ) :
    (autoFetchFires oj n = true →
      ∃ jc, oj = some jc ∧ jc.status = JobStatus.completed) ∧
    (handleDownloadFires oj = true →
      ∃ jc, oj = some jc ∧ jc.status = JobStatus.completed) ∧
    (downloadButtonDisabled j = false ↔ j.status = JobStatus.completed) ∧
    (downloadOriginalShown j = true ↔ j.status = JobStatus.completed) := by
  refine ⟨?_, ?_, ?_, ?_⟩
  · intro h
    cases oj with
    | none => exact absurd h (by simp [autoFetchFires])
    | some jc =>
      refine ⟨jc, rfl, ?_⟩
      have h2 : jc.status = JobStatus.completed ∧ n = 0 := by
        simpa [autoFetchFires] using h
      exact h2.1
  · intro h
    cases oj with
    | none => exact absurd h (by simp [handleDownloadFires])
    | some jc => exact ⟨jc, rfl, by simpa [handleDownloadFires] using h⟩
  · rw [downloadButtonDisabled]
    cases hd : decide (j.status = JobStatus.completed) <;> simp_all
  · rw [downloadOriginalShown]
    simp

/-- C8 witness: on a concrete completed job every path is open, and the
guards applied through the theorem confirm it. -/
theorem C8_download_requires_completed_witness :
    (∃ jc, some (demoJob JobStatus.completed) = some jc ∧
      jc.status = JobStatus.completed) ∧
    (downloadButtonDisabled (demoJob JobStatus.completed) = false) ∧
    (downloadOriginalShown (demoJob JobStatus.completed) = true) := by
  have h := C8_download_requires_completed (demoJob JobStatus.completed)
    (some (demoJob JobStatus.completed)) 0
  exact ⟨h.2.1 (by decide), h.2.2.1.mpr (by decide), h.2.2.2.mpr (by decide)⟩

/-- A switch case other than the `smiles` one leaves the accumulated
`smiles` field untouched. -/
theorem applyKey_smiles_not (pf : String → ℚ) (pi : String → Int)
    (r : PartialRow) (k : FieldKey) (v : List Char)
    (hk : k ≠ FieldKey.smiles) :
    (applyKey pf pi r k v).smiles = r.smiles := by
  cases k <;> first | exact absurd rfl hk | rfl

/-- In any sub-list of map entries whose only `smiles`-valued keys are the
two SMILES header names, looking up a non-SMILES header cannot produce the
`smiles` field. -/
theorem find?_snd_ne_smiles (h : String)
    (h1 : h ≠ "input_smiles") (h2 : h ≠ "smiles") :
    ∀ l : List (String × FieldKey),
      (∀ p ∈ l, p.2 = FieldKey.smiles →
        p.1 = "input_smiles" ∨ p.1 = "smiles") →
      ((l.find? (fun p => p.1 == h)).map (fun p => p.2)) ≠
        some FieldKey.smiles := by
  intro l H
  induction l with
  | nil => simp
  | cons p t ih =>
    cases hp : (p.1 == h) with
    | true =>
      rw [show List.find? (fun q => q.1 == h) (p :: t) = some p from
        @List.find?_cons_of_pos _ (fun q => q.1 == h) p t hp]
      intro hc
      have hps : p.2 = FieldKey.smiles := by simpa using hc
      have hph : p.1 = h := by simpa using hp
      rcases H p (List.mem_cons_self p t) hps with h' | h'
      · exact h1 (by rw [← hph, h'])
      · exact h2 (by rw [← hph, h'])
    | false =>
      rw [show List.find? (fun q => q.1 == h) (p :: t) =
            List.find? (fun q => q.1 == h) t from
        @List.find?_cons_of_neg _ (fun q => q.1 == h) p t (by simp [hp])]
      exact ih (fun q hq => H q (List.mem_cons_of_mem p hq))

/-- A header that is not a SMILES header does not map to the `smiles`
field. -/
theorem headerMap_smiles_not (h : String) (hns : isSmilesName h = false) :
    headerMap h ≠ some FieldKey.smiles := by
  have h1 : ¬ h = "input_smiles" := by
    intro he
    simp [isSmilesName, he] at hns
  have h2 : ¬ h = "smiles" := by
    intro he
    simp [isSmilesName, he] at hns
  rw [headerMap]
  exact find?_snd_ne_smiles h h1 h2 headerPairs (by decide)

/-- A header that is not a SMILES header leaves the accumulated `smiles`
field untouched. -/
theorem assignField_smiles_not (pf : String → ℚ) (pi : String → Int)
    (r : PartialRow) (h : String) (v : List Char)
    (hns : isSmilesName h = false) :
    (assignField pf pi r h v).smiles = r.smiles := by
  have hne := headerMap_smiles_not h hns
  cases hm : headerMap h with
  | none => simp [assignField, hm]
  | some k =>
    rw [hm] at hne
    have hk : k ≠ FieldKey.smiles := by
      intro he
      exact hne (by rw [he])
    simp only [assignField, hm]
    exact applyKey_smiles_not pf pi r k v hk

/-- A SMILES header stores the NA-filtered cell into the `smiles` field. -/
theorem assignField_smiles_is (pf : String → ℚ) (pi : String → Int)
    (r : PartialRow) (h : String) (v : List Char)
    (hs : isSmilesName h = true) :
    (assignField pf pi r h v).smiles = parseStrCell v := by
  have h1 : h = "input_smiles" ∨ h = "smiles" := by
    simpa [isSmilesName] using hs
  have hm : headerMap h = some FieldKey.smiles := by
    rcases h1 with h1 | h1 <;> subst h1 <;> rfl
  simp only [assignField, hm]
  rfl

/-- Running the header loop over headers none of which is a SMILES header
leaves the `smiles` field untouched. -/
theorem assignFields_smiles_none (pf : String → ℚ) (pi : String → Int)
    (values : List (List Char)) (hs : List String) :
    ∀ (i : ℕ) (acc : PartialRow), (∀ h ∈ hs, isSmilesName h = false) →
      (assignFields pf pi values i hs acc).smiles = acc.smiles := by
  induction hs with
  | nil => intro i acc _; rfl
  | cons h t ih =>
    intro i acc H
    simp only [assignFields]
    rw [ih (i + 1) _ (fun x hx => H x (List.mem_cons_of_mem h hx))]
    exact assignField_smiles_not pf pi acc h _ (H h (List.mem_cons_self h t))

/-- If exactly one header position `k` carries a SMILES header, the
header loop stores the NA-filtered cell of column `i + k` (where `i` is
the loop's running offset) into the `smiles` field. -/
theorem assignFields_smiles_unique (pf : String → ℚ) (pi : String → Int)
    (values : List (List Char)) (hs : List String) :
    ∀ (i : ℕ) (acc : PartialRow) (k : ℕ) (hk : k < hs.length),
      isSmilesName (hs.get ⟨k, hk⟩) = true →
      (∀ (j : ℕ) (hj : j < hs.length), j ≠ k → isSmilesName (hs.get ⟨j, hj⟩) = false) →
      (assignFields pf pi values i hs acc).smiles =
        parseStrCell (values.getD (i + k) []) := by
  induction hs with
  | nil =>
    intro i acc k hk
    exact absurd hk (by simp)
  | cons h t ih =>
    intro i acc k hk hsk huniq
    cases k with
    | zero =>
      have htail : ∀ x ∈ t, isSmilesName x = false := by
        intro x hx
        obtain ⟨j, rfl⟩ := List.mem_iff_get.1 hx
        have hj1 : (j : ℕ) + 1 < (h :: t).length :=
          Nat.succ_lt_succ j.isLt
        exact huniq ((j : ℕ) + 1) hj1 (by simp)
      simp only [assignFields]
      rw [assignFields_smiles_none pf pi values t (i + 1) _ htail]
      rw [assignField_smiles_is pf pi acc h _ hsk, Nat.add_zero]
    | succ m =>
      have hm : m < t.length := Nat.lt_of_succ_lt_succ hk
      have hsm : isSmilesName (t.get ⟨m, hm⟩) = true := hsk
      have htail : ∀ (j : ℕ) (hj : j < t.length), j ≠ m →
          isSmilesName (t.get ⟨j, hj⟩) = false := by
        intro j hj hne
        have hj1 : j + 1 < (h :: t).length := Nat.succ_lt_succ hj
        exact huniq (j + 1) hj1 (by omega)
      have harith : i + 1 + m = i + (m + 1) := by omega
      simp only [assignFields]
      rw [ih (i + 1) _ m hm hsm htail, harith]

/-- C9: parser shape and order.  An input with at most one line, or whose
header row has no `input_smiles`/`smiles` column, parses to `[]`;
otherwise each data line yields exactly one result, in line order, and
when the header row has a unique SMILES column the row's `smiles` field
is the NA-filtered value of that column. -/
theorem C9_parse_shape_and_order (pf : String → ℚ) (pi : String → Int)
    (csv : String) :
    ((splitOnChar '\n' (trimChars csv.data)).length ≤ 1 →
      parseCSVResults pf pi csv = []) ∧
    (∀ hl dls, splitOnChar '\n' (trimChars csv.data) = hl :: dls →
      hasSmilesHeader (csvHeaders hl) = false → parseCSVResults pf pi csv = []) ∧
    (∀ hl dls, splitOnChar '\n' (trimChars csv.data) = hl :: dls →
      hasSmilesHeader (csvHeaders hl) = true →
      parseCSVResults pf pi csv =
        dls.map (fun line => mkFinalRow (buildRow pf pi (csvHeaders hl) line)) ∧
      (parseCSVResults pf pi csv).length = dls.length ∧
      (∀ (i : ℕ) (hi : i < dls.length) (hi2 : i < (parseCSVResults pf pi csv).length),
        (parseCSVResults pf pi csv).get ⟨i, hi2⟩ =
          mkFinalRow (buildRow pf pi (csvHeaders hl) (dls.get ⟨i, hi⟩)))) ∧
    (∀ (headers : List String) (line : List Char) (k : ℕ)
        (hk : k < headers.length),
      isSmilesName (headers.get ⟨k, hk⟩) = true →
      (∀ (j : ℕ) (hj : j < headers.length), j ≠ k →
        isSmilesName (headers.get ⟨j, hj⟩) = false) →
      (mkFinalRow (buildRow pf pi headers line)).smiles =
        (if isNACell ((valuesOfLine line).getD k []) then ""
         else String.mk ((valuesOfLine line).getD k []))) := by
  refine ⟨?_, ?_, ?_, ?_⟩
  · intro h
    rw [parseCSVResults]
    cases hls : splitOnChar '\n' (trimChars csv.data) with
    | nil => rfl
    | cons a t =>
      cases t with
      | nil => rfl
      | cons b t2 =>
        rw [hls] at h
        simp at h
  · intro hl dls hEq hno
    rw [parseCSVResults, hEq]
    cases dls with
    | nil => rfl
    | cons d rest => simp [parseCSVLines, hno]
  · intro hl dls hEq hyes
    have hmain : parseCSVResults pf pi csv =
        dls.map (fun line => mkFinalRow (buildRow pf pi (csvHeaders hl) line)) := by
      rw [parseCSVResults, hEq]
      cases dls with
      | nil => rfl
      | cons d rest => simp [parseCSVLines, hyes]
    refine ⟨hmain, ?_, ?_⟩
    · rw [hmain, List.length_map]
    · intro i hi hi2
      have := List.get_of_eq hmain ⟨i, hi2⟩
      rw [this, List.get_map]
  · intro headers line k hk hsk huniq
    have hb : (buildRow pf pi headers line).smiles =
        parseStrCell ((valuesOfLine line).getD k []) := by
      rw [buildRow,
        assignFields_smiles_unique pf pi (valuesOfLine line) headers 0 {} k hk hsk huniq,
        Nat.zero_add]
    show (buildRow pf pi headers line).smiles.getD "" = _
    rw [hb, parseStrCell]
    split_ifs <;> rfl

/-- C9 witness: the shape, order and SMILES-column facts applied to a
concrete three-line artifact. -/
theorem C9_parse_shape_and_order_witness :
    (parseCSVResults pfDemo piDemo csvDemo).length = 2 ∧
    (mkFinalRow (buildRow pfDemo piDemo ["input_smiles", "bbb_probability"]
      ("CCO,0.9".data))).smiles = "CCO" := by
  have h := C9_parse_shape_and_order pfDemo piDemo csvDemo
  constructor
  · have h3 := h.2.2.1 ("input_smiles,bbb_probability".data)
      [("CCO,0.9".data), ("CCN,".data)] (by decide) (by decide)
    rw [h3.2.1]
    rfl
  · have huniq : ∀ (j : ℕ)
        (hj : j < (["input_smiles", "bbb_probability"] : List String).length),
        j ≠ 0 →
        isSmilesName ((["input_smiles", "bbb_probability"] : List String).get
          ⟨j, hj⟩) = false := by
      intro j hj hne
      have hj1 : j = 1 := by
        simp at hj
        omega
      subst hj1
      show isSmilesName "bbb_probability" = false
      decide
    have h4 := h.2.2.2 ["input_smiles", "bbb_probability"] ("CCO,0.9".data)
      0 (by decide) (by decide) huniq
    rw [h4]
    decide

/-- Filtering a list by a predicate and by its negation partitions it:
the two lengths sum to the original length. -/
theorem length_filter_add_length_filter_not {α : Type} (p : α → Bool)
    (l : List α) :
    (l.filter (fun a => !p a)).length + (l.filter p).length = l.length := by
  induction l with
  | nil => rfl
  | cons a t ih =>
    cases ha : p a <;> simp [List.filter_cons, ha, ← ih] <;> omega

/-- A stronger filter predicate yields at most as many elements. -/
theorem length_filter_le_of_imp {α : Type} (p q : α → Bool) (l : List α)
    (h : ∀ a, p a = true → q a = true) :
    (l.filter p).length ≤ (l.filter q).length := by
  induction l with
  | nil => exact le_refl 0
  | cons a t ih =>
    cases ha : p a with
    | false =>
      rw [List.filter_cons, if_neg (by simp [ha])]
      cases hq : q a with
      | false => rw [List.filter_cons, if_neg (by simp [hq])]; exact ih
      | true =>
        rw [List.filter_cons, if_pos (by simp [hq])]
        exact le_trans ih (Nat.le_succ _)
    | true =>
      rw [List.filter_cons, if_pos (by simp [ha]),
        List.filter_cons, if_pos (by simp [h a ha])]
      simpa using ih

/-- C10: the summary counters partition every result list
(`successCount + errorCount = length`, `highPermeability ≤ successCount`),
and `filteredAndSortedResults` is a permutation of a sublist of its input:
filtering and sorting never invent, duplicate or alter rows. -/
theorem C10_counts_partition_filter_subset
    (le : MoleculeResult → MoleculeResult → Bool)
    (searchTerm filterClass : String) (results : List MoleculeResult) :
    successCount results + errorCount results = results.length ∧
    highPermeabilityCount results ≤ successCount results ∧
    (filteredAndSortedResults le searchTerm filterClass results).Perm
      (results.filter
        (fun r => matchesSearch searchTerm r && matchesFilter filterClass r)) ∧
    (results.filter
      (fun r => matchesSearch searchTerm r && matchesFilter filterClass r)).Sublist
      results := by
  refine ⟨?_, ?_, ?_, ?_⟩
  · rw [successCount, errorCount]
    exact length_filter_add_length_filter_not errTruthy results
  · rw [highPermeabilityCount, successCount]
    refine length_filter_le_of_imp _ _ results ?_
    intro a ha
    simp only [Bool.and_eq_true] at ha
    exact ha.1
  · rw [filteredAndSortedResults]
    exact List.mergeSort_perm _ le
  · exact List.filter_sublist results


end VitronMax
